import Mathlib

/-!
Verification of the polling-coordinator / config-flow integration modules
(Comelit coordinator, Pterodactyl config flow, Aquacell setup, matrix
sensor platform) against their natural-language specification.

Each definition is a shallow embedding of the corresponding Python
function; stateful framework behaviour that lives outside the given
sources is modelled from the specification and marked as such in its
doc comment.
-/

namespace Comelit

/-- The closed set of typed exceptions raised by the vendor client
(aiocomelit `exceptions`), plus the generic/unknown case the
specification lists as part of the vendor error surface.  Each carries
its free-form message text. -/
inductive VendorError where
  | cannotConnect (msg : String)
  | cannotAuthenticate (msg : String)
  | cannotRetrieveData (msg : String)
  | generic (msg : String)
deriving DecidableEq, Repr

/-- Python `repr(err)` of a vendor exception: the class name applied to
the message text (quoting elided). -/
def VendorError.reprStr : VendorError → String
  | .cannotConnect m => "CannotConnect(" ++ m ++ ")"
  | .cannotAuthenticate m => "CannotAuthenticate(" ++ m ++ ")"
  | .cannotRetrieveData m => "CannotRetrieveData(" ++ m ++ ")"
  | .generic m => "Exception(" ++ m ++ ")"

/-- Outcome of one call to `ComelitBaseCoordinator._async_update_data`:
either the fully assembled data is returned, or one of the host
exceptions `UpdateFailed` / `ConfigEntryAuthFailed` is raised, or an
exception not matched by any `except` clause propagates out unchanged. -/
inductive UpdateOutcome (T : Type) where
  | success (data : T)
  | updateFailed (msg : String)
  | configEntryAuthFailed
  | unclassified (err : VendorError)
deriving DecidableEq, Repr

/-- The free-form message attached to the exception object that crosses
the coordinator boundary, when there is one: `UpdateFailed` is raised
as `UpdateFailed(repr(err))`, `ConfigEntryAuthFailed` is raised bare,
and an unclassified vendor exception keeps its own text. -/
def UpdateOutcome.message {T : Type} : UpdateOutcome T → Option String
  | .success _ => none
  | .updateFailed m => some m
  | .configEntryAuthFailed => none
  | .unclassified e => some e.reprStr

/-- True when the outcome crossed the boundary as one of the host
classifications (or as data); false when a vendor exception escaped the
`except` clauses unclassified. -/
def UpdateOutcome.isClassified {T : Type} : UpdateOutcome T → Bool
  | .unclassified _ => false
  | _ => true

/-- The `try` body of `_async_update_data`: `await self.api.login()`
followed by `return await self._async_update_system_data()`.  A raise
from either stage escapes the body identically. -/
def tryBody {T : Type} (login : Except VendorError Unit)
    (fetch : Except VendorError T) : Except VendorError T :=
  match login with
  | .error e => .error e
  | .ok _ => fetch

/-- `ComelitBaseCoordinator._async_update_data`
(coordinator.py lines 97-106): the try body, with
`except (CannotConnect, CannotRetrieveData) as err: raise
UpdateFailed(repr(err)) from err` and
`except CannotAuthenticate as err: raise ConfigEntryAuthFailed from
err`; any other exception has no matching clause and propagates. -/
def asyncUpdateData {T : Type} (login : Except VendorError Unit)
    (fetch : Except VendorError T) : UpdateOutcome T :=
  match tryBody login fetch with
  | .ok data => .success data
  | .error (VendorError.cannotConnect m) =>
      .updateFailed (VendorError.reprStr (VendorError.cannotConnect m))
  | .error (VendorError.cannotRetrieveData m) =>
      .updateFailed (VendorError.reprStr (VendorError.cannotRetrieveData m))
  | .error (VendorError.cannotAuthenticate _) => .configEntryAuthFailed
  | .error e => .unclassified e

/-- Modelled from the spec: the host `DataUpdateCoordinator` base class
(not under the given sources) publishes the value returned by
`_async_update_data` as the new coordinator data, and when the update
method raises it keeps the previously published data untouched.  The
first component is the coordinator data after the cycle, the second the
cycle outcome. -/
def asyncRefresh {T : Type} (prev : Option T) (login : Except VendorError Unit)
    (fetch : Except VendorError T) : Option T × UpdateOutcome T :=
  match asyncUpdateData login fetch with
  | .success data => (some data, .success data)
  | out => (prev, out)

/-- `const.py` domain constant used in the coordinator name. -/
def DOMAIN : String := "comelit"

/-- The arguments `ComelitBaseCoordinator.__init__` passes to the host
base-class constructor that the claims mention. -/
structure CoordinatorSettings where
  name : String
  updateIntervalSeconds : Nat
deriving DecidableEq, Repr

/-- `ComelitBaseCoordinator.__init__` (coordinator.py lines 57-63):
`name=f"{DOMAIN}-{host}-coordinator"` and
`update_interval=timedelta(seconds=5)`. -/
def initSettings (host : String) : CoordinatorSettings :=
  { name := DOMAIN ++ "-" ++ host ++ "-coordinator"
    updateIntervalSeconds := 5 }

end Comelit

namespace Pterodactyl

/-- The connection parameters entered in the config-flow form
(`TEST_USER_INPUT` in the tests holds a url and an api key). -/
structure UserInput where
  url : String
  apiKey : String
deriving DecidableEq, Repr

/-- Exceptions the vendor client (pydactyl) can raise during the
validation call: the two typed errors the tests inject
(`ClientConfigError`, `PterodactylApiError`) and an arbitrary other
exception. -/
inductive VendorError where
  | clientConfigError (msg : String)
  | pterodactylApiError (msg : String)
  | generic (msg : String)
deriving DecidableEq, Repr

/-- The result returned by one config-flow step, mirroring
`FlowResultType`: a redisplayed form carrying its error map and the
previously entered values to suggest, a created entry with its title
and persisted data, or an abort with its reason. -/
inductive FlowResult where
  | form (errors : List (String × String)) (suggested : Option UserInput)
  | createEntry (title : String) (data : UserInput)
  | abort (reason : String)
deriving DecidableEq, Repr

/-- Modelled from the spec: the pterodactyl config-flow user step
(config_flow.py is not under the given sources; only its tests are).
On submitted input it performs exactly one validation call against the
remote API; a typed connect/API error redisplays the form with
`cannot_connect`, any other exception redisplays it with `unknown`,
both preserving the entered values; on success it aborts with
`already_configured` when the unique identifier (the url) is already
registered, else creates the entry titled with the url and persisting
exactly the input. -/
def asyncStepUser (configuredIds : List String) (input : UserInput)
    (api : Except VendorError Unit) : FlowResult :=
  match api with
  | .error (VendorError.clientConfigError _) =>
      .form [("base", "cannot_connect")] (some input)
  | .error (VendorError.pterodactylApiError _) =>
      .form [("base", "cannot_connect")] (some input)
  | .error (VendorError.generic _) =>
      .form [("base", "unknown")] (some input)
  | .ok _ =>
      if input.url ∈ configuredIds then .abort "already_configured"
      else .createEntry input.url input

/-- Modelled from the spec: the host persists a created entry
(title, data) into config-entry storage; a form or abort result
persists nothing. -/
def applyFlowResult (entries : List (String × UserInput)) :
    FlowResult → List (String × UserInput)
  | .createEntry title data => entries ++ [(title, data)]
  | _ => entries

/-- State of a running flow across several submissions: still showing
the form, completed with a created entry, or aborted. -/
inductive FlowState where
  | awaitingInput (errors : List (String × String)) (suggested : Option UserInput)
  | completed (title : String) (data : UserInput)
  | aborted (reason : String)
deriving DecidableEq, Repr

/-- One submission: while the flow is showing the form, the user step
runs on the submitted input and the live API outcome; terminal states
ignore further input. -/
def flowStep (configuredIds : List String) (st : FlowState)
    (attempt : UserInput × Except VendorError Unit) : FlowState :=
  match st with
  | .awaitingInput _ _ =>
      match asyncStepUser configuredIds attempt.1 attempt.2 with
      | .form errors suggested => .awaitingInput errors suggested
      | .createEntry title data => .completed title data
      | .abort reason => .aborted reason
  | st => st

/-- A full flow run: `async_init` shows the form with an empty error
map, then each submission is processed in order, each against the live
API outcome for that attempt. -/
def runFlow (configuredIds : List String)
    (attempts : List (UserInput × Except VendorError Unit)) : FlowState :=
  attempts.foldl (flowStep configuredIds) (.awaitingInput [] none)

/-- A failing attempt keeps the flow on the form (helper for the
recovery theorems). -/
theorem flowStep_error (configuredIds : List String)
    (errors : List (String × String)) (suggested : Option UserInput)
    (input : UserInput) (e : VendorError) :
    ∃ errors2 suggested2,
      flowStep configuredIds (.awaitingInput errors suggested)
        (input, Except.error e) = .awaitingInput errors2 suggested2 := by
  cases e <;> exact ⟨_, _, rfl⟩

/-- Any prefix of failing attempts keeps the flow on the form (helper
for the recovery theorems). -/
theorem foldl_error_awaiting (configuredIds : List String)
    (prev : List (UserInput × Except VendorError Unit))
    (hfail : ∀ p ∈ prev, ∃ e, p.2 = Except.error e)
    (errors : List (String × String)) (suggested : Option UserInput) :
    ∃ errors2 suggested2,
      prev.foldl (flowStep configuredIds) (.awaitingInput errors suggested)
        = .awaitingInput errors2 suggested2 := by
  induction prev generalizing errors suggested with
  | nil => exact ⟨errors, suggested, rfl⟩
  | cons p rest ih =>
      obtain ⟨e, he⟩ := hfail p (List.mem_cons_self p rest)
      have hp : p = (p.1, Except.error e) := by
        cases p; simp_all
      obtain ⟨errors2, suggested2, hstep⟩ :=
        flowStep_error configuredIds errors suggested p.1 e
      rw [List.foldl_cons, hp, hstep]
      exact ih (fun q hq => hfail q (List.mem_cons_of_mem p hq)) errors2 suggested2

end Pterodactyl

namespace Aquacell

/-- Brand enumeration from the vendor library (aioaquacell.const);
`AQUACELL` is the member the setup code uses as default. -/
inductive Brand where
  | aquacell
  | harvey
deriving DecidableEq, Repr

/-- Persisted config-entry data fields that `async_setup_entry` reads:
the brand key may be absent from the stored entry data. -/
structure EntryData where
  brand : Option Brand
deriving DecidableEq, Repr

/-- The vendor API client, holding the brand it was constructed with. -/
structure AquacellApi where
  brand : Brand
deriving DecidableEq, Repr

/-- The coordinator, constructed from the API client. -/
structure Coordinator where
  api : AquacellApi
deriving DecidableEq, Repr

/-- `async_setup_entry` (aquacell/`__init__.py` lines 18-33):
`brand = entry.data.get(CONF_BRAND, Brand.AQUACELL)`, then
`AquacellApi(session, brand)` and the coordinator built on it. -/
def asyncSetupEntry (entry : EntryData) : Coordinator :=
  { api := { brand := entry.brand.getD Brand.aquacell } }

end Aquacell

namespace MatrixUnreadCount

/-- `TEMP_CELSIUS` from homeassistant.const. -/
def TEMP_CELSIUS : String := "°C"

/-- A configuration accepted by the extended `PLATFORM_SCHEMA`:
required name (string), required room pattern (a regular-expression
string), optional id. -/
structure PlatformConfig where
  name : String
  roomPattern : String
  id : Option String
deriving DecidableEq, Repr

/-- The sensor entity: its only mutable field is `_state`, set to
`None` by `__init__`. -/
structure ExampleSensor where
  state : Option Int
deriving DecidableEq, Repr

/-- `ExampleSensor.__init__`: `self._state = None`. -/
def ExampleSensor.init : ExampleSensor := { state := none }

/-- The `name` property: always the literal `Example Temperature`. -/
def ExampleSensor.name (_ : ExampleSensor) : String := "Example Temperature"

/-- The `unit_of_measurement` property: always `TEMP_CELSIUS`. -/
def ExampleSensor.unitOfMeasurement (_ : ExampleSensor) : String :=
  TEMP_CELSIUS

/-- The `update` method: `self._state = 23`, unconditionally. -/
def ExampleSensor.update (_ : ExampleSensor) : ExampleSensor :=
  { state := some 23 }

/-- `setup_platform` (sensor.py lines 23-27): logs the validated config
and calls `add_entities([ExampleSensor()])`; the config value is never
consulted. -/
def setup_platform (_ : PlatformConfig) : List ExampleSensor :=
  [ExampleSensor.init]

end MatrixUnreadCount

namespace Comelit

/-- C1: a refresh cycle that fails at any point — login raising or the
data fetch raising — leaves the previously published data exactly as it
was, and a successful cycle replaces it wholesale with the fully
assembled snapshot returned by the fetch; no intermediate state is ever
published. -/
theorem snapshot_atomic_on_failure (T : Type) (prev : Option T)
    (login : Except VendorError Unit) (fetch : Except VendorError T) :
    (∃ e : VendorError,
        (login = Except.error e ∨ fetch = Except.error e) ∧
        (asyncRefresh prev login fetch).1 = prev)
    ∨ (∃ data : T, login = Except.ok () ∧ fetch = Except.ok data ∧
        (asyncRefresh prev login fetch).1 = some data) := by
  cases login with
  | error e =>
      refine Or.inl ⟨e, Or.inl rfl, ?_⟩
      cases e <;> rfl
  | ok u =>
      cases u
      cases fetch with
      | error e =>
          refine Or.inl ⟨e, Or.inr rfl, ?_⟩
          cases e <;> rfl
      | ok data => exact Or.inr ⟨data, rfl, rfl, rfl⟩

/-- C2: during a refresh, `CannotConnect` and `CannotRetrieveData`
(from either the login or the fetch stage) are reclassified as the
retryable `UpdateFailed` with the prior data retained, while
`CannotAuthenticate` is reclassified as `ConfigEntryAuthFailed`, the
fatal-to-session escalation to reauthentication. -/
theorem refresh_error_classification (T : Type) (prev : Option T)
    (m : String) (fetch : Except VendorError T) :
    asyncRefresh prev (Except.error (VendorError.cannotConnect m)) fetch
      = (prev, UpdateOutcome.updateFailed
          (VendorError.reprStr (VendorError.cannotConnect m)))
    ∧ asyncRefresh prev (Except.error (VendorError.cannotRetrieveData m)) fetch
      = (prev, UpdateOutcome.updateFailed
          (VendorError.reprStr (VendorError.cannotRetrieveData m)))
    ∧ asyncRefresh prev (Except.error (VendorError.cannotAuthenticate m)) fetch
      = (prev, UpdateOutcome.configEntryAuthFailed)
    ∧ asyncRefresh prev (Except.ok ())
        (Except.error (VendorError.cannotConnect m) : Except VendorError T)
      = (prev, UpdateOutcome.updateFailed
          (VendorError.reprStr (VendorError.cannotConnect m)))
    ∧ asyncRefresh prev (Except.ok ())
        (Except.error (VendorError.cannotRetrieveData m) : Except VendorError T)
      = (prev, UpdateOutcome.updateFailed
          (VendorError.reprStr (VendorError.cannotRetrieveData m)))
    ∧ asyncRefresh prev (Except.ok ())
        (Except.error (VendorError.cannotAuthenticate m) : Except VendorError T)
      = (prev, UpdateOutcome.configEntryAuthFailed) :=
  ⟨rfl, rfl, rfl, rfl, rfl, rfl⟩

/-- C8: the Comelit coordinator constructor fixes the update interval
at exactly 5 seconds for every host. -/
theorem update_interval_five_seconds (host : String) :
    (initSettings host).updateIntervalSeconds = 5 := rfl

end Comelit

namespace Pterodactyl

/-- C4: a `ClientConfigError` or `PterodactylApiError` raised by the
validation call makes the flow redisplay the form with exactly the
error map base ↦ cannot_connect, with the originally entered field
values preserved for resubmission. -/
theorem transient_error_redisplays_form (configuredIds : List String)
    (input : UserInput) (m : String) :
    asyncStepUser configuredIds input
        (Except.error (VendorError.clientConfigError m))
      = FlowResult.form [("base", "cannot_connect")] (some input)
    ∧ asyncStepUser configuredIds input
        (Except.error (VendorError.pterodactylApiError m))
      = FlowResult.form [("base", "cannot_connect")] (some input) :=
  ⟨rfl, rfl⟩

/-- C5: after any sequence of failed attempts, submitting input whose
identifier is not yet registered while the live API call succeeds
completes the flow, creating an entry whose data is exactly the
submitted input and whose title is the submitted url; the outcome
depends only on the live API result of the final attempt, never on a
cached earlier failure. -/
theorem recovery_creates_exact_entry (configuredIds : List String)
    (prev : List (UserInput × Except VendorError Unit)) (input : UserInput)
    (hfail : ∀ p ∈ prev, ∃ e, p.2 = Except.error e)
    (hnew : input.url ∉ configuredIds) :
    runFlow configuredIds (prev ++ [(input, Except.ok ())])
      = FlowState.completed input.url input := by
  unfold runFlow
  rw [List.foldl_append]
  obtain ⟨errors2, suggested2, h⟩ :=
    foldl_error_awaiting configuredIds prev hfail [] none
  rw [h]
  simp [List.foldl, flowStep, asyncStepUser, hnew]

/-- Witness for C5: one connect failure then a successful submission of
the same input creates the entry titled with the url and holding
exactly the input. -/
theorem recovery_creates_exact_entry_witness :
    runFlow []
        ([(UserInput.mk "http://ptero" "key",
            Except.error (VendorError.clientConfigError "boom"))]
          ++ [(UserInput.mk "http://ptero" "key", Except.ok ())])
      = FlowState.completed "http://ptero" (UserInput.mk "http://ptero" "key") :=
  recovery_creates_exact_entry [] _ _
    (by
      intro p hp
      rw [List.mem_singleton] at hp
      subst hp
      exact ⟨_, rfl⟩)
    (by simp)

/-- C7: when the validation call succeeds but the unique identifier of
the submitted input is already registered, the flow aborts with reason
already_configured and the stored entries are left unchanged — no
duplicate entry is created. -/
theorem duplicate_aborts_without_new_entry
    (entries : List (String × UserInput)) (input : UserInput)
    (hdup : input.url ∈ entries.map Prod.fst) :
    asyncStepUser (entries.map Prod.fst) input (Except.ok ())
      = FlowResult.abort "already_configured"
    ∧ applyFlowResult entries
        (asyncStepUser (entries.map Prod.fst) input (Except.ok ()))
      = entries := by
  have h1 : asyncStepUser (entries.map Prod.fst) input (Except.ok ())
      = FlowResult.abort "already_configured" := by
    simp [asyncStepUser, hdup]
  refine ⟨h1, ?_⟩
  rw [h1]
  rfl

/-- Witness for C7: re-submitting a url that is already stored aborts
and leaves the single stored entry as the only one. -/
theorem duplicate_aborts_without_new_entry_witness :
    asyncStepUser
        ([("http://ptero", UserInput.mk "http://ptero" "old")].map Prod.fst)
        (UserInput.mk "http://ptero" "new") (Except.ok ())
      = FlowResult.abort "already_configured"
    ∧ applyFlowResult [("http://ptero", UserInput.mk "http://ptero" "old")]
        (asyncStepUser
          ([("http://ptero", UserInput.mk "http://ptero" "old")].map Prod.fst)
          (UserInput.mk "http://ptero" "new") (Except.ok ()))
      = [("http://ptero", UserInput.mk "http://ptero" "old")] :=
  duplicate_aborts_without_new_entry _ _ (by simp)

end Pterodactyl

/-- C3: counterexample — a generic vendor exception raised during the
Comelit coordinator data fetch matches none of the `except` clauses of
`_async_update_data` and propagates out of the coordinator boundary
unclassified, contradicting the claim that every vendor exception is
mapped to one of the four canonical kinds there. -/
theorem generic_vendor_error_escapes_unclassified :
    (Comelit.asyncUpdateData (T := Nat) (Except.ok ())
        (Except.error (Comelit.VendorError.generic "boom"))).isClassified
      = false
    ∧ Comelit.asyncUpdateData (T := Nat) (Except.ok ())
        (Except.error (Comelit.VendorError.generic "boom"))
      = Comelit.UpdateOutcome.unclassified (Comelit.VendorError.generic "boom") :=
  ⟨rfl, rfl⟩

/-- C3 (amended): at the config-flow boundary every vendor exception,
the generic ones included, is mapped to a canonical kind
(cannot_connect or unknown) with the entered values preserved; at the
coordinator boundary the typed connect, data-retrieval and
authentication exceptions are classified, but a generic vendor
exception propagates out of the update method unclassified. -/
theorem error_classification_boundary (configuredIds : List String)
    (input : Pterodactyl.UserInput) (e : Pterodactyl.VendorError) (m : String) :
    (∃ k, (k = "cannot_connect" ∨ k = "unknown") ∧
      Pterodactyl.asyncStepUser configuredIds input (Except.error e)
        = Pterodactyl.FlowResult.form [("base", k)] (some input))
    ∧ (Comelit.asyncUpdateData (T := Unit) (Except.ok ())
        (Except.error (Comelit.VendorError.cannotConnect m))).isClassified = true
    ∧ (Comelit.asyncUpdateData (T := Unit) (Except.ok ())
        (Except.error (Comelit.VendorError.cannotRetrieveData m))).isClassified = true
    ∧ (Comelit.asyncUpdateData (T := Unit) (Except.ok ())
        (Except.error (Comelit.VendorError.cannotAuthenticate m))).isClassified = true
    ∧ (Comelit.asyncUpdateData (T := Unit) (Except.ok ())
        (Except.error (Comelit.VendorError.generic m))).isClassified = false := by
  refine ⟨?_, rfl, rfl, rfl, rfl⟩
  cases e with
  | clientConfigError m2 => exact ⟨"cannot_connect", Or.inl rfl, rfl⟩
  | pterodactylApiError m2 => exact ⟨"cannot_connect", Or.inl rfl, rfl⟩
  | generic m2 => exact ⟨"unknown", Or.inr rfl, rfl⟩

/-- C6: counterexample — the Comelit coordinator raises
`UpdateFailed(repr(err))`, so the error object that crosses the
coordinator boundary carries the free-form vendor exception text: two
connect failures of the same classified kind but different vendor
messages surface two different messages, each embedding the vendor
text verbatim. -/
theorem coordinator_error_carries_vendor_text :
    (Comelit.asyncRefresh (some 0 : Option Nat) (Except.ok ())
        (Except.error (Comelit.VendorError.cannotConnect "vendor detail one"))).2.message
      = some "CannotConnect(vendor detail one)"
    ∧ (Comelit.asyncRefresh (some 0 : Option Nat) (Except.ok ())
        (Except.error (Comelit.VendorError.cannotConnect "vendor detail two"))).2.message
      = some "CannotConnect(vendor detail two)"
    ∧ ("CannotConnect(vendor detail one)" : String)
        ≠ "CannotConnect(vendor detail two)" :=
  ⟨rfl, rfl, by decide⟩

/-- C6 (amended): an unclassified exception during config-flow
submission yields exactly the error map base ↦ unknown with the raw
exception text never included in the flow result; a coordinator
authentication failure is raised bare (no message), but the retryable
coordinator failure `UpdateFailed` does carry `repr(err)` — the vendor
exception text — as its message across the boundary. -/
theorem boundary_message_policy (configuredIds : List String)
    (input : Pterodactyl.UserInput) (m : String) (T : Type)
    (fetch : Except Comelit.VendorError T) :
    Pterodactyl.asyncStepUser configuredIds input
        (Except.error (Pterodactyl.VendorError.generic m))
      = Pterodactyl.FlowResult.form [("base", "unknown")] (some input)
    ∧ (Comelit.asyncUpdateData
        (Except.error (Comelit.VendorError.cannotAuthenticate m)) fetch).message
      = none
    ∧ (Comelit.asyncUpdateData
        (Except.error (Comelit.VendorError.cannotConnect m)) fetch).message
      = some ((Comelit.VendorError.cannotConnect m).reprStr) :=
  ⟨rfl, rfl, rfl⟩

/-- C9: Aquacell setup reads the brand from the stored entry data,
defaulting to `Brand.AQUACELL` when the field is absent, and the API
client inside the coordinator is constructed with exactly that brand. -/
theorem aquacell_setup_brand (b : Aquacell.Brand) :
    (Aquacell.asyncSetupEntry { brand := none }).api.brand
      = Aquacell.Brand.aquacell
    ∧ (Aquacell.asyncSetupEntry { brand := some b }).api.brand = b :=
  ⟨rfl, rfl⟩

/-- C10: `setup_platform` ignores the validated configuration — every
accepted config yields the same single freshly initialised
`ExampleSensor`, whose name is always `Example Temperature`, whose unit
is Celsius, and whose update method always sets the state to 23. -/
theorem sensor_platform_ignores_config
    (config config2 : MatrixUnreadCount.PlatformConfig)
    (s : MatrixUnreadCount.ExampleSensor) :
    MatrixUnreadCount.setup_platform config
      = [MatrixUnreadCount.ExampleSensor.init]
    ∧ MatrixUnreadCount.setup_platform config
      = MatrixUnreadCount.setup_platform config2
    ∧ MatrixUnreadCount.ExampleSensor.name s = "Example Temperature"
    ∧ MatrixUnreadCount.ExampleSensor.unitOfMeasurement s
      = MatrixUnreadCount.TEMP_CELSIUS
    ∧ (MatrixUnreadCount.ExampleSensor.update s).state = some 23 :=
  ⟨rfl, rfl, rfl, rfl, rfl⟩
